import Mathlib

/-
Verification of the LLeaky recurrent adaptive leaky integrate-and-fire layer
(src/drl/LSNN/lleaky.py) against its natural-language specification.

Embedding conventions:
* Per-unit tensor values are modelled as rationals (ℚ); all the claimed
  properties are elementwise, so a single unit suffices.
* The recurrent projection `self.recurrent` is an arbitrary function
  R : ℚ → ℚ applied to the previous spike value (dense / conv / one-to-one
  all instantiate it).
* Python `False` defaults and the `_SpikeTensor` "init_flag" sentinel are
  modelled with `Option ℚ`: `none` is the sentinel/default, `some q` a bound
  tensor value.
* `raise TypeError` is modelled with `Except String`.
* The base class `ALIF` lives in `neurons.py`, which is not part of the
  sources; its helpers (`alif_mem_reset`, `mem_reset`, `alif_fire`,
  `_SpikeTorchConv`, `init_lleaky`, `init_rleaky`) are modelled from the
  spec, as marked on each definition.
* The modelled fragment fixes `inhibition=False` and `state_quant=False`
  (the claims under scrutiny do not touch the lateral-inhibition or
  quantization branches, which are cross-unit / external-collaborator
  features).
-/

namespace LLeaky

/-- Reset policies, mirroring `reset_mechanism_val` of the base class:
0 = "subtract", 1 = "zero", 2 = "none".  The base class validates the
reset-policy token at construction, so only these three values occur. -/
inductive ResetMechanism where
  | subtract : ResetMechanism
  | zero : ResetMechanism
  | noReset : ResetMechanism
deriving DecidableEq

/-- The per-layer configuration fields read by the state-transition code:
decay rate `beta`, base threshold `threshold`, adaptation coupling
`thresh_beta`, adaptation decay `rho_b` (= exp(-dt/tau_adaptation) in the
source; embedded here as its value), and the reset policy. -/
structure Config where
  beta : ℚ
  threshold : ℚ
  thresh_beta : ℚ
  rho_b : ℚ
  reset_mechanism : ResetMechanism
deriving DecidableEq

/-- Torch `x.clamp(0, 1)`: clip `x` into the interval [0, 1]. -/
def clampUnit (x : ℚ) : ℚ := min (max x 0) 1

/-- `LLeaky._base_state_function(input_, spk, mem)` (lleaky.py:380-382):
`self.beta.clamp(0,1) * mem + (1 - self.beta.clamp(0,1)) * (input_ + self.recurrent(spk))`. -/
def base_state_function (cfg : Config) (R : ℚ → ℚ) (input spk mem : ℚ) : ℚ :=
  clampUnit cfg.beta * mem + (1 - clampUnit cfg.beta) * (input + R spk)

/-- `LLeaky._b_state_function(spk, b)` (lleaky.py:384-386):
`self.rho_b * b + (1 - self.rho_b) * spk`. -/
def b_state_function (cfg : Config) (spk b : ℚ) : ℚ :=
  cfg.rho_b * b + (1 - cfg.rho_b) * spk

/-- `LLeaky._get_new_thresh(b)` (lleaky.py:388-390):
`self.threshold + b * self.thresh_beta`. -/
def get_new_thresh (cfg : Config) (b : ℚ) : ℚ :=
  cfg.threshold + b * cfg.thresh_beta

/-- `LLeaky._build_state_function(input_, spk, mem, thresh)`
(lleaky.py:392-403); `reset` is the instance attribute `self.reset`
computed just before the call, passed explicitly here. -/
def build_state_function (cfg : Config) (R : ℚ → ℚ)
    (reset input spk mem thresh : ℚ) : ℚ :=
  match cfg.reset_mechanism with
  | .subtract => base_state_function cfg R input spk (mem - reset * thresh)
  | .zero =>
      base_state_function cfg R input spk mem
        - reset * base_state_function cfg R input spk mem
  | .noReset => base_state_function cfg R input spk mem

/-- `LLeaky._base_state_function_hidden(input_)` (lleaky.py:405-411):
`self.beta.clamp(0,1) * self.mem + input_ + self.recurrent(self.spk)`;
the owned `self.mem` / `self.spk` are passed explicitly here. -/
def base_state_function_hidden (cfg : Config) (R : ℚ → ℚ)
    (input mem spk : ℚ) : ℚ :=
  clampUnit cfg.beta * mem + input + R spk

/-- `LLeaky._build_state_function_hidden(input_)` (lleaky.py:413-425);
`reset` is the instance attribute `self.reset`, passed explicitly. -/
def build_state_function_hidden (cfg : Config) (R : ℚ → ℚ)
    (reset input mem spk : ℚ) : ℚ :=
  match cfg.reset_mechanism with
  | .subtract =>
      base_state_function_hidden cfg R input mem spk - reset * cfg.threshold
  | .zero =>
      base_state_function_hidden cfg R input mem spk
        - reset * base_state_function_hidden cfg R input mem spk
  | .noReset => base_state_function_hidden cfg R input mem spk

/-- `RecurrentOneToOne(V).forward(x)` (lleaky.py:504-510): elementwise
product `x * V`. -/
def RecurrentOneToOne (V x : ℚ) : ℚ := x * V

end LLeaky

namespace LLeaky

/-! Spec-side formulas (§4.3, §4.4), written from the spec's own text, to be
compared with the source-derived functions above. -/

/-- The spec's §4.4 base-integration formula:
`base(input, spike_prev, potential) = β_eff * potential + (1 - β_eff) * (input + RecurrentProjection(spike_prev))`
with `β_eff = clamp(β, 0, 1)`. -/
def base_integration_spec (beta input rec_feedback potential : ℚ) : ℚ :=
  let beta_eff := min (max beta 0) 1
  beta_eff * potential + (1 - beta_eff) * (input + rec_feedback)

/-- The spec's §4.4 description of the hidden-convention base integration:
the decayed potential plus `input` and the projection, without the
`(1-β_eff)` scaling. -/
def base_integration_hidden_spec (beta input rec_feedback potential : ℚ) : ℚ :=
  let beta_eff := min (max beta 0) 1
  beta_eff * potential + input + rec_feedback

/-- The spec's §4.3 adaptation-trace update: `b' = ρ_b * b + (1 - ρ_b) * spike_prev`. -/
def adaptation_update_spec (rho_b b spike_prev : ℚ) : ℚ :=
  rho_b * b + (1 - rho_b) * spike_prev

/-- The spec's §4.3 effective threshold: `threshold = base_threshold + b' * thresh_coupling`. -/
def effective_threshold_spec (base_threshold thresh_coupling b : ℚ) : ℚ :=
  base_threshold + b * thresh_coupling

end LLeaky

namespace LLeaky

/-- Claim C1: the explicit-state base integration is
`clamp(β,0,1) * mem + (1 - clamp(β,0,1)) * (input + R(spk))`, the
owned/hidden-state base integration is `clamp(β,0,1) * mem + input + R(spk)`
(no `(1-β_eff)` scaling), and the decay rate used by both is clamped into
[0, 1]. -/
theorem base_state_functions_match_spec (cfg : Config) (R : ℚ → ℚ)
    (input spk mem : ℚ) :
    base_state_function cfg R input spk mem
        = base_integration_spec cfg.beta input (R spk) mem
      ∧ base_state_function_hidden cfg R input mem spk
        = base_integration_hidden_spec cfg.beta input (R spk) mem
      ∧ 0 ≤ clampUnit cfg.beta ∧ clampUnit cfg.beta ≤ 1 := by
  refine ⟨rfl, rfl, ?_, ?_⟩
  · exact le_min (le_max_right _ _) zero_le_one
  · exact min_le_right _ _

/-- Claim C2: the adaptation-trace update is `b' = ρ_b·b + (1-ρ_b)·spk`, the
effective threshold is `base_threshold + b'·thresh_coupling`, and the new
trace is unchanged under any change of the decay rate β, base threshold and
coupling coefficient (it never reads the membrane potential or the
threshold). -/
theorem b_state_function_matches_spec (cfg cfg' : Config) (spk b : ℚ)
    (hrho : cfg.rho_b = cfg'.rho_b) :
    b_state_function cfg spk b = adaptation_update_spec cfg.rho_b b spk
      ∧ get_new_thresh cfg (b_state_function cfg spk b)
        = effective_threshold_spec cfg.threshold cfg.thresh_beta
            (b_state_function cfg spk b)
      ∧ b_state_function cfg spk b = b_state_function cfg' spk b := by
  refine ⟨rfl, rfl, ?_⟩
  unfold b_state_function
  rw [hrho]

/-- Witness for C2 at a concrete configuration pair differing in every field
except the adaptation decay. -/
theorem b_state_function_matches_spec_witness :
    let cfg : Config := ⟨1/2, 1/100, 9/5, 3/4, .zero⟩
    let cfg' : Config := ⟨1/3, 5, 7, 3/4, .subtract⟩
    b_state_function cfg 1 (1/2) = adaptation_update_spec cfg.rho_b (1/2) 1
      ∧ get_new_thresh cfg (b_state_function cfg 1 (1/2))
        = effective_threshold_spec cfg.threshold cfg.thresh_beta
            (b_state_function cfg 1 (1/2))
      ∧ b_state_function cfg 1 (1/2) = b_state_function cfg' 1 (1/2) :=
  b_state_function_matches_spec ⟨1/2, 1/100, 9/5, 3/4, .zero⟩
    ⟨1/3, 5, 7, 3/4, .subtract⟩ 1 (1/2) rfl

end LLeaky

namespace LLeaky

/-- Claim C3 counterexample configuration: β = 1/2, base threshold 1,
Subtract reset, one-to-one projection with V = 1. -/
def subtractCfg : Config := ⟨1/2, 1, 0, 1/2, .subtract⟩

/-- Claim C3 as stated is false for the owned/hidden calling convention:
with β = 1/2, threshold 1, reset = 1 and all of input, spk, mem at 0, the
hidden-convention Subtract update yields -1 (it subtracts `reset*threshold`
after integration), while `base(input, spk, mem - reset*threshold)` would
yield -1/2. -/
theorem subtract_reset_hidden_not_pre_subtraction :
    build_state_function_hidden subtractCfg (RecurrentOneToOne 1) 1 0 0 0
      ≠ base_state_function_hidden subtractCfg (RecurrentOneToOne 1) 0
          (0 - 1 * subtractCfg.threshold) 0 := by
  norm_num [build_state_function_hidden, base_state_function_hidden,
    subtractCfg, clampUnit, RecurrentOneToOne, min_def, max_def]

/-- Claim C3 amended: under Subtract reset, the explicit convention computes
`base(input, spk, mem - reset*thresh)` with the adaptation-adjusted
threshold, while the hidden convention computes
`base_hidden(input) - reset * base_threshold`: the subtraction happens after
integration, unscaled by the decay, and uses the base threshold rather than
the adaptive one. -/
theorem subtract_reset_per_convention (cfg : Config) (R : ℚ → ℚ)
    (reset input spk mem thresh : ℚ)
    (h : cfg.reset_mechanism = .subtract) :
    build_state_function cfg R reset input spk mem thresh
        = base_state_function cfg R input spk (mem - reset * thresh)
      ∧ build_state_function_hidden cfg R reset input mem spk
        = base_state_function_hidden cfg R input mem spk
            - reset * cfg.threshold := by
  unfold build_state_function build_state_function_hidden
  rw [h]
  exact ⟨rfl, rfl⟩

/-- Witness for the amended C3 at the counterexample configuration. -/
theorem subtract_reset_per_convention_witness :
    build_state_function subtractCfg (RecurrentOneToOne 1) 1 0 0 0 1
        = base_state_function subtractCfg (RecurrentOneToOne 1) 0 0 (0 - 1 * 1)
      ∧ build_state_function_hidden subtractCfg (RecurrentOneToOne 1) 1 0 0 0
        = base_state_function_hidden subtractCfg (RecurrentOneToOne 1) 0 0 0
            - 1 * subtractCfg.threshold :=
  subtract_reset_per_convention subtractCfg (RecurrentOneToOne 1) 1 0 0 0 1 rfl

/-- Claim C4: under the ZeroOut reset policy, in both calling conventions, a
unit with reset = 1 ends the step with potential exactly 0 whatever the
input and previous spike, and a unit with reset = 0 ends the step with the
unchanged base integration. -/
theorem zero_reset_zeroes_potential (cfg : Config) (R : ℚ → ℚ)
    (input spk mem thresh : ℚ)
    (h : cfg.reset_mechanism = .zero) :
    build_state_function cfg R 1 input spk mem thresh = 0
      ∧ build_state_function_hidden cfg R 1 input mem spk = 0
      ∧ build_state_function cfg R 0 input spk mem thresh
        = base_state_function cfg R input spk mem
      ∧ build_state_function_hidden cfg R 0 input mem spk
        = base_state_function_hidden cfg R input mem spk := by
  unfold build_state_function build_state_function_hidden
  rw [h]
  refine ⟨by ring, by ring, by ring, by ring⟩

/-- Witness for C4 at a concrete ZeroOut configuration and state. -/
theorem zero_reset_zeroes_potential_witness :
    let cfg : Config := ⟨1/2, 1/100, 9/5, 3/4, .zero⟩
    build_state_function cfg (RecurrentOneToOne 2) 1 5 1 3 1 = 0
      ∧ build_state_function_hidden cfg (RecurrentOneToOne 2) 1 5 3 1 = 0
      ∧ build_state_function cfg (RecurrentOneToOne 2) 0 5 1 3 1
        = base_state_function cfg (RecurrentOneToOne 2) 5 1 3
      ∧ build_state_function_hidden cfg (RecurrentOneToOne 2) 0 5 3 1
        = base_state_function_hidden cfg (RecurrentOneToOne 2) 5 3 1 :=
  zero_reset_zeroes_potential ⟨1/2, 1/100, 9/5, 3/4, .zero⟩
    (RecurrentOneToOne 2) 5 1 3 1 rfl

end LLeaky

namespace LLeaky

/-- `LLeaky._lleaky_init_cases()` (lleaky.py:433-476). The source first
takes the Python truthiness of each configuration field
(`bool(self.all_to_all)`, `self.linear_features`, `bool(self.conv2d_channels)`,
`bool(self.kernel_size)`); the four Booleans here are those truthiness
values. Returns the raised `TypeError`, or `.ok` when construction may
proceed. -/
def lleaky_init_cases (all_to_all lf cc ks : Bool) : Except String Unit :=
  if all_to_all then
    if !lf then
      if !(cc || ks) then
        .error "When all_to_all=True, RLeaky requires either linear_features or (conv2d_channels and kernel_size) to be specified."
      else if cc != ks then
        .error "conv2d_channels and kernel_size must both be specified."
      else .ok ()
    else if (lf && ks) || (lf && cc) then
      .error "linear_features cannot be specified at the same time as conv2d_channels or kernel_size."
    else .ok ()
  else
    if lf || cc || ks then
      .error "When all_to_all=False, none of linear_features, conv2d_channels, or kernel_size should be specified."
    else .ok ()

/-- The kind of recurrent projection `__init__` ends up building. -/
inductive RecurrentKind where
  | linear : RecurrentKind
  | conv2d : RecurrentKind
  | oneToOne : RecurrentKind
deriving DecidableEq, Fintype

/-- Construction order of `LLeaky.__init__` (lleaky.py:274-282):
`_lleaky_init_cases()` runs first; only if it does not raise is the
recurrent projection built (`_init_recurrent_net()` picks linear when
`linear_features` is truthy, else conv2d when `kernel_size` is given,
lleaky.py:345-352; one-to-one otherwise). An error therefore aborts
construction before any projection exists. -/
def lleaky_init (all_to_all lf cc ks : Bool) : Except String RecurrentKind :=
  match lleaky_init_cases all_to_all lf cc ks with
  | .error e => .error e
  | .ok () =>
      .ok (if all_to_all then (if lf then .linear else .conv2d) else .oneToOne)

/-- The rejection table exactly as Claim C5 lists it: all-to-all with
neither a linear size nor conv fields; all-to-all with exactly one of
channels/kernel; all-to-all with a linear size together with any conv
field; not-all-to-all with any of the three fields. -/
def rejected_by_claim (all_to_all lf cc ks : Bool) : Bool :=
  (all_to_all && !lf && !cc && !ks)
    || (all_to_all && (cc != ks))
    || (all_to_all && lf && (cc || ks))
    || (!all_to_all && (lf || cc || ks))

/-- Claim C5: construction raises exactly on the claimed combinations of
configuration truthiness (and accepts the complementary ones), and on a
rejected combination no recurrent projection of any kind is produced
(the successful-value part of the construction result is empty). -/
theorem lleaky_init_rejects_exactly :
    ∀ a lf cc ks : Bool,
      (lleaky_init a lf cc ks).isOk = !(rejected_by_claim a lf cc ks)
        ∧ (rejected_by_claim a lf cc ks = true →
            (lleaky_init a lf cc ks).toOption = none) := by
  decide

end LLeaky

namespace LLeaky

/-- Kernel-size argument of the convolutional recurrent projection: a single
integer or a per-axis pair, matching `type(self.kernel_size) is int`
(lleaky.py:368). -/
inductive KernelSize where
  | square : ℕ → KernelSize
  | rect : ℕ → ℕ → KernelSize
deriving DecidableEq

/-- `LLeaky._init_padding()` (lleaky.py:367-371): padding is
`kernel_size // 2` for an integer kernel (same on both axes), and
`(kernel_size[0] // 2, kernel_size[1] // 2)` for a pair. -/
def init_padding : KernelSize → ℕ × ℕ
  | .square k => (k / 2, k / 2)
  | .rect k0 k1 => (k0 / 2, k1 / 2)

/-- Per-axis kernel extent of a `KernelSize`. -/
def kernelDims : KernelSize → ℕ × ℕ
  | .square k => (k, k)
  | .rect k0 k1 => (k0, k1)

/-- Output spatial extent of `nn.Conv2d` along one axis for input extent
`H`, padding `p` and kernel extent `k`, at the defaults used by
`_init_recurrent_conv2d` (stride 1, dilation 1):
`H + 2p - k + 1`. -/
def conv2dOutDim (H p k : ℕ) : ℤ := (H : ℤ) + 2 * p - k + 1

/-- Claim C8 as stated is false for even kernel sizes: a 2×2 kernel gets
padding (1, 1), and on a 4-pixel axis the convolution output has extent 5,
not 4. -/
theorem conv_same_size_fails_even_kernel :
    init_padding (.square 2) = (1, 1)
      ∧ conv2dOutDim 4 (init_padding (.square 2)).1 (kernelDims (.square 2)).1
          ≠ (4 : ℤ) := by
  constructor
  · rfl
  · decide

/-- Claim C8 amended: padding is `kernel // 2` computed independently per
axis for both the integer and the pair form, and the output spatial size
equals the input spatial size on every axis whose kernel extent is odd. -/
theorem conv_padding_and_output_size (ks : KernelSize) (H0 H1 : ℕ)
    (h0 : Odd (kernelDims ks).1) (h1 : Odd (kernelDims ks).2) :
    init_padding ks = ((kernelDims ks).1 / 2, (kernelDims ks).2 / 2)
      ∧ conv2dOutDim H0 (init_padding ks).1 (kernelDims ks).1 = H0
      ∧ conv2dOutDim H1 (init_padding ks).2 (kernelDims ks).2 = H1 := by
  obtain ⟨a, ha⟩ := h0
  obtain ⟨b, hb⟩ := h1
  refine ⟨?_, ?_, ?_⟩
  · cases ks <;> rfl
  · have hk : (kernelDims ks).1 / 2 = a := by omega
    cases ks <;>
      · simp only [init_padding, kernelDims] at *
        rw [conv2dOutDim, hk]
        push_cast [ha]
        ring
  · have hk : (kernelDims ks).2 / 2 = b := by omega
    cases ks <;>
      · simp only [init_padding, kernelDims] at *
        rw [conv2dOutDim, hk]
        push_cast [hb]
        ring

/-- Witness for the amended C8 with a 3×5 kernel on a 7×9 input. -/
theorem conv_padding_and_output_size_witness :
    init_padding (.rect 3 5) = ((kernelDims (.rect 3 5)).1 / 2, (kernelDims (.rect 3 5)).2 / 2)
      ∧ conv2dOutDim 7 (init_padding (.rect 3 5)).1 (kernelDims (.rect 3 5)).1 = 7
      ∧ conv2dOutDim 9 (init_padding (.rect 3 5)).2 (kernelDims (.rect 3 5)).2 = 9 :=
  conv_padding_and_output_size (.rect 3 5) 7 9 ⟨1, by decide⟩ ⟨2, by decide⟩

end LLeaky

namespace LLeaky

/-- Owned hidden state of an `init_hidden=True` layer: `self.spk`,
`self.mem`, `self.b`. `none` models the `_SpikeTensor` sentinel carrying
`init_flag` (lleaky.py:287-288, 293-302); `some q` a bound tensor value. -/
structure HiddenState where
  spk : Option ℚ
  mem : Option ℚ
  b : Option ℚ
deriving DecidableEq

/-- Modelled from the spec: `_SpikeTorchConv` lives in the missing
`neurons.py`; per §4.5 it allocates zero-valued state shaped to match the
first real input encountered, replacing the sentinel triple. -/
def spikeTorchConvInit : HiddenState := ⟨some 0, some 0, some 0⟩

/-- Modelled from the spec: `init_lleaky()` of the missing `neurons.py`
returns the distinguished uninitialized sentinel triple used for deferred
shape binding (§4.5); it is assigned to the owned state at construction
(lleaky.py:287-288). -/
def init_lleaky : HiddenState := ⟨none, none, none⟩

/-- Modelled from the spec: the parent-class `init_rleaky()` (missing
`neurons.py`) returns the sentinel pair for spike and potential only;
`reset_hidden` assigns exactly this pair (lleaky.py:498-501). -/
def init_rleaky : Option ℚ × Option ℚ := (none, none)

/-- Modelled from the spec: `alif_mem_reset(mem, b, thresh)` of the missing
`neurons.py`, the §4.4 reset gate: 1 when the prior potential met or
exceeded the freshly updated threshold, else 0. -/
def alif_mem_reset (mem b thresh : ℚ) : ℚ :=
  if thresh ≤ mem then 1 else 0

/-- Modelled from the spec: `mem_reset(mem)` of the missing `neurons.py`,
the reset gate used by the hidden branch (lleaky.py:329); it receives only
the potential, so it compares against the base threshold. -/
def mem_reset (cfg : Config) (mem : ℚ) : ℚ :=
  if cfg.threshold ≤ mem then 1 else 0

/-- Modelled from the spec: `alif_fire` of the missing `neurons.py`, the
§4.4 spike emission `spike = (potential ≥ threshold)` as 0/1. -/
def alif_fire (mem thresh : ℚ) : ℚ :=
  if thresh ≤ mem then 1 else 0

/-- `LLeaky.forward` explicit-state branch (lleaky.py:308-323) for an
`init_hidden=False` layer with `inhibition=False` and `state_quant=False`.
The `spk`, `mem`, `b` arguments default to Python `False` (`none` here),
which behaves as 0 in the arithmetic consuming it. Returns the
`(spk, mem, b)` result triple. -/
def forward_explicit (cfg : Config) (R : ℚ → ℚ) (input : ℚ)
    (spkArg memArg bArg : Option ℚ) : ℚ × ℚ × ℚ :=
  let spk := spkArg.getD 0
  let mem := memArg.getD 0
  let b := b_state_function cfg spk (bArg.getD 0)
  let thresh := get_new_thresh cfg b
  let reset := alif_mem_reset mem b thresh
  let mem' := build_state_function cfg R reset input spk mem thresh
  let spk' := alif_fire mem' thresh
  (spk', mem', b)

/-- `LLeaky.forward` for an `init_hidden=True` layer (lleaky.py:293-343,
hidden branch; `inhibition=False`, `state_quant=False`). Control flow
mirrors the source: the first-pass `elif` (lleaky.py:299-302) replaces the
owned sentinel state via `_SpikeTorchConv` when no explicit `mem` was
passed; `_lleaky_forward_cases(spk, mem)` (lleaky.py:427-431) then raises
when `spk` or `mem` was supplied; otherwise the owned state is stepped.
The `b` argument is never consulted on this path. Returns the (possibly
mutated) owned state together with the call's result (the spike). -/
def forward_hidden (cfg : Config) (R : ℚ → ℚ) (st : HiddenState)
    (input : ℚ) (spkArg memArg bArg : Option ℚ) :
    HiddenState × Except String ℚ :=
  let st1 := if memArg = none ∧ st.mem = none then spikeTorchConvInit else st
  if memArg ≠ none ∨ spkArg ≠ none then
    (st1, .error "When init_hidden=True, RLeaky expects 1 input argument.")
  else
    let mem := st1.mem.getD 0
    let spk := st1.spk.getD 0
    let reset := mem_reset cfg mem
    let mem' := build_state_function_hidden cfg R reset input mem spk
    let spk' := alif_fire mem' cfg.threshold
    ({ spk := some spk', mem := some mem', b := st1.b }, .ok spk')

/-- `LLeaky.reset_hidden` (lleaky.py:491-501) applied to one instance:
reassigns only `(self.spk, self.mem)` from the parent `init_rleaky()`;
`self.b` is not reassigned. -/
def reset_hidden (st : HiddenState) : HiddenState :=
  { spk := init_rleaky.1, mem := init_rleaky.2, b := st.b }

end LLeaky

namespace LLeaky

/-- Concrete configuration used in the hidden-convention counterexamples:
β = 1/2, base threshold 1, coupling 9/5, ρ_b = 1/2, Subtract reset. -/
def hiddenCfg : Config := ⟨1/2, 1, 9/5, 1/2, .subtract⟩

/-- Claim C6 as stated is false: on an initialized owned state with
previous spike 1 and trace 0, a hidden-convention step leaves the owned
adaptation trace at 0, whereas the §4.3 update from the previous spike
would give 1/2; the hidden branch never invokes `_b_state_function` or
`_get_new_thresh`. -/
theorem hidden_step_skips_adaptation :
    (forward_hidden hiddenCfg (RecurrentOneToOne 1)
        ⟨some 1, some 0, some 0⟩ 0 none none none).1.b = some 0
      ∧ some (b_state_function hiddenCfg 1 0) ≠ (some 0 : Option ℚ) := by
  constructor
  · rfl
  · norm_num [b_state_function, hiddenCfg]

/-- Claim C6 amended: a hidden-convention step leaves the owned adaptation
trace unchanged (no §4.3 update, no adaptive threshold is derived on that
path), while the explicit convention updates the trace first, derives the
effective threshold from the fresh trace, and only then computes the reset
gate, the new potential, and the spike, in that dependency order. -/
theorem adaptation_per_convention (cfg : Config) (R : ℚ → ℚ)
    (st : HiddenState) (input : ℚ) (hinit : st.mem ≠ none)
    (input' : ℚ) (spkArg memArg bArg : Option ℚ) :
    (forward_hidden cfg R st input none none none).1.b = st.b
      ∧ forward_explicit cfg R input' spkArg memArg bArg
        = (let b := b_state_function cfg (spkArg.getD 0) (bArg.getD 0)
           let thresh := get_new_thresh cfg b
           let reset := alif_mem_reset (memArg.getD 0) b thresh
           let mem' := build_state_function cfg R reset input'
             (spkArg.getD 0) (memArg.getD 0) thresh
           (alif_fire mem' thresh, mem', b)) := by
  constructor
  · simp [forward_hidden, hinit]
  · rfl

/-- Witness for the amended C6 on an initialized owned state. -/
theorem adaptation_per_convention_witness :
    (some 0 : Option ℚ) ≠ none
      ∧ ((forward_hidden hiddenCfg (RecurrentOneToOne 1)
            ⟨some 1, some 0, some 0⟩ 7 none none none).1.b = some 0
          ∧ forward_explicit hiddenCfg (RecurrentOneToOne 1) 7
              (some 2) (some 3) (some (1/4))
            = (let b := b_state_function hiddenCfg 2 (1/4)
               let thresh := get_new_thresh hiddenCfg b
               let reset := alif_mem_reset 3 b thresh
               let mem' := build_state_function hiddenCfg (RecurrentOneToOne 1)
                 reset 7 2 3 thresh
               (alif_fire mem' thresh, mem', b))) :=
  ⟨Option.some_ne_none 0,
    adaptation_per_convention hiddenCfg (RecurrentOneToOne 1)
      ⟨some 1, some 0, some 0⟩ 7 (Option.some_ne_none 0) 7
      (some 2) (some 3) (some (1/4))⟩

/-- Claim C7 as stated is false on a first call: a fresh hidden-mode layer
(owned state still the sentinel triple) that is given an explicit spike
argument while the potential argument stays default has its owned state
initialized by `_SpikeTorchConv` (lleaky.py:299-302) before
`_lleaky_forward_cases` raises, so the `TypeError` is raised only after an
observable mutation of the layer-owned state. -/
theorem hidden_forward_mutates_before_usage_error :
    (forward_hidden hiddenCfg (RecurrentOneToOne 1) init_lleaky 0
        (some 1) none none).1 ≠ init_lleaky
      ∧ (forward_hidden hiddenCfg (RecurrentOneToOne 1) init_lleaky 0
          (some 1) none none).2
        = .error "When init_hidden=True, RLeaky expects 1 input argument." := by
  constructor
  · decide
  · rfl

/-- Claim C7 amended: on a hidden-convention layer, supplying a non-default
spike or potential argument makes the step raise the `TypeError` without
performing the reset/potential/spike updates, and the owned state is left
untouched whenever it was already initialized or the potential argument was
supplied; only a first call (sentinel owned potential) with the potential
argument left default initializes the owned state before the error. The
explicit-state branch of `forward` contains no converse convention check. -/
theorem hidden_forward_rejects_explicit_args (cfg : Config) (R : ℚ → ℚ)
    (st : HiddenState) (input : ℚ) (spkArg memArg bArg : Option ℚ)
    (harg : spkArg ≠ none ∨ memArg ≠ none) :
    (forward_hidden cfg R st input spkArg memArg bArg).2
        = .error "When init_hidden=True, RLeaky expects 1 input argument."
      ∧ (st.mem ≠ none ∨ memArg ≠ none →
          (forward_hidden cfg R st input spkArg memArg bArg).1 = st) := by
  have hc : memArg ≠ none ∨ spkArg ≠ none := harg.symm
  constructor
  · simp only [forward_hidden, if_pos hc]
  · intro hmem
    have h1 : ¬(memArg = none ∧ st.mem = none) := by
      rcases hmem with h | h
      · exact fun hh => h hh.2
      · exact fun hh => h hh.1
    simp only [forward_hidden, if_pos hc, if_neg h1]

/-- Witness for the amended C7 on an already-initialized hidden layer. -/
theorem hidden_forward_rejects_explicit_args_witness :
    ((some 1 : Option ℚ) ≠ none ∨ (none : Option ℚ) ≠ none)
      ∧ (forward_hidden hiddenCfg (RecurrentOneToOne 1)
            ⟨some 1, some 0, some 0⟩ 5 (some 1) none none).2
          = .error "When init_hidden=True, RLeaky expects 1 input argument."
      ∧ (forward_hidden hiddenCfg (RecurrentOneToOne 1)
            ⟨some 1, some 0, some 0⟩ 5 (some 1) none none).1
          = ⟨some 1, some 0, some 0⟩ :=
  ⟨Or.inl (Option.some_ne_none 1),
    (hidden_forward_rejects_explicit_args hiddenCfg (RecurrentOneToOne 1)
      ⟨some 1, some 0, some 0⟩ 5 (some 1) none none
      (Or.inl (Option.some_ne_none 1))).1,
    (hidden_forward_rejects_explicit_args hiddenCfg (RecurrentOneToOne 1)
      ⟨some 1, some 0, some 0⟩ 5 (some 1) none none
      (Or.inl (Option.some_ne_none 1))).2
      (Or.inl (Option.some_ne_none 0))⟩

/-- Claim C9 fails on the code: `reset_hidden` reassigns only the spike and
potential from the parent `init_rleaky()` pair; the owned adaptation trace
keeps its prior value, so a state with a bound trace does not return to the
construction-time triple `init_lleaky` — contradicting the method's own
docstring, "Used to clear hidden state variables to zero". Evaluated at the
failing state (spk = 2, mem = 3, b = 1). -/
theorem reset_hidden_leaves_trace :
    reset_hidden ⟨some 2, some 3, some 1⟩
        = ⟨init_rleaky.1, init_rleaky.2, some 1⟩
      ∧ reset_hidden ⟨some 2, some 3, some 1⟩ ≠ init_lleaky
      ∧ (reset_hidden ⟨some 2, some 3, some 1⟩).b ≠ init_lleaky.b := by
  refine ⟨rfl, ?_, ?_⟩ <;> decide

/-- Claim C10: on a hidden-convention layer, a call supplying only the
adaptation-trace argument (spike and potential left at their defaults) is
indistinguishable from a call with no state arguments — no error is raised
and the supplied trace is ignored, because `_lleaky_forward_cases` inspects
only `spk` and `mem` and the hidden branch never reads the `b` argument. -/
theorem hidden_forward_ignores_b_arg (cfg : Config) (R : ℚ → ℚ)
    (st : HiddenState) (input : ℚ) (bArg : Option ℚ) :
    forward_hidden cfg R st input none none bArg
        = forward_hidden cfg R st input none none none
      ∧ (forward_hidden cfg R st input none none bArg).2.isOk = true := by
  refine ⟨rfl, ?_⟩
  simp [forward_hidden, Except.isOk, Except.toBool]

end LLeaky

namespace LLeaky

/-- Witness for C5: the all-to-all configuration with no linear size and no
conv fields is rejected, and no recurrent projection is produced for it. -/
theorem lleaky_init_rejects_exactly_witness :
    rejected_by_claim true false false false = true
      ∧ (lleaky_init true false false false).isOk
        = !(rejected_by_claim true false false false)
      ∧ (lleaky_init true false false false).toOption = none :=
  ⟨rfl, (lleaky_init_rejects_exactly true false false false).1,
    (lleaky_init_rejects_exactly true false false false).2 rfl⟩

end LLeaky
